import Mathlib

/-! Park Assist decode / render state machine

A shallow embedding of `GMParkAssist.cpp` (car-display-pcb-v6): the decoder
`processMessage`, the expiry check `shouldRender` / `canRender` and the
renderer `render`, followed by the properties proved about them.

Conventions of the embedding:

* the object's mutable members are the fields of the structure `State`
  and every member function takes the state and returns the new one;
* `millis()` is an explicit argument `now`;
* `unsigned long` is 32 bits wide (the source's own remark on the clock
  wrapping after "about 49d 17h" of milliseconds); values are natural numbers
  and every `unsigned long` operation reduces modulo `2 ^ 32` explicitly;
* a payload byte (`uint8_t`) is a `Fin 256`, a payload is `Fin 8 → Fin 256`;
* `Serial` diagnostics write to the serial port only and touch no member, so
  they do not appear in the state transformers.
-/

namespace GMParkAssist

/-! ## Machine arithmetic -/

/-- Number of values of an `unsigned long` on the target (32 bits). -/
def ULONG_RANGE : Nat := 2 ^ 32

/-- Largest `unsigned long`, `ULONG_MAX` of `<limits.h>`. -/
def ULONG_MAX : Nat := 2 ^ 32 - 1

/-- Addition of two `unsigned long` values: the sum modulo `2 ^ 32`. -/
def addUL (a b : Nat) : Nat := (a + b) % ULONG_RANGE

/-- Subtraction of two `unsigned long` values: the difference modulo `2 ^ 32`. -/
def subUL (a b : Nat) : Nat := (a % ULONG_RANGE + ULONG_RANGE - b % ULONG_RANGE) % ULONG_RANGE

/-- Bitwise or of two `unsigned long` values. -/
def orUL (a b : Nat) : Nat := (a ||| b) % ULONG_RANGE

/-! ## Data model -/

/-- A bus payload `uint8_t buf[8]`. -/
abbrev Buf : Type := Fin 8 → Fin 256

/-- Modelled from the spec: the member declarations of class `GMParkAssist`
(`GMParkAssist.h` is not among the sources). The members are the ones
`GMParkAssist.cpp` assigns: `lastTimestamp` (an `unsigned long`, 0 is the
"inactive" sentinel), `parkAssistDistance`, `parkAssistLevel`,
`parkAssistSlot` (bytes) and `needsRender` (the spec's `dirty`). -/
structure State where
  lastTimestamp : Nat
  parkAssistDistance : Nat
  parkAssistLevel : Nat
  parkAssistSlot : Nat
  needsRender : Bool
  deriving DecidableEq, Repr

/-- Modelled from the spec: the state at module construction, "all-inactive"
(the member initialisers live in `GMParkAssist.h`, which is not among the
sources). -/
def State.initial : State :=
  { lastTimestamp := 0, parkAssistDistance := 0, parkAssistLevel := 0,
    parkAssistSlot := 0, needsRender := false }

/-! ## Decoder -/

/-- `GMParkAssist::processParkAssistDisableMessage`: blank out all data. -/
def processParkAssistDisableMessage (_s : State) : State :=
  { lastTimestamp := 0
    parkAssistDistance := 0
    parkAssistLevel := 0
    parkAssistSlot := 0
    needsRender := false }

/-- `GMParkAssist::processParkAssistInfoMessage`: store the timestamp
`millis() | 1`, the distance `buf[1]`, and the level and slot chosen from the
three nibbles `slot_m`, `slot_r`, `slot_l`; then force a text render. -/
def processParkAssistInfoMessage (now : Nat) (s : State) (buf : Buf) : State :=
  let s1 : State := { s with lastTimestamp := orUL now 1 }
  let s2 : State := { s1 with parkAssistDistance := (buf 1).val }
  let slot_m : Nat := ((buf 2).val &&& 0xF0) >>> 4
  let slot_r : Nat := (buf 2).val &&& 0x0F
  let slot_l : Nat := (buf 3).val &&& 0x0F
  let s3 : State :=
    if slot_m ≠ 0 then
      let t : State := { s2 with parkAssistLevel := slot_m }
      if slot_l ≠ 0 then
        { t with parkAssistSlot := 1 }
      else if slot_r ≠ 0 then
        { t with parkAssistSlot := 3 }
      else
        { t with parkAssistSlot := 2 }
    else if slot_l ≠ 0 then
      { s2 with parkAssistLevel := slot_l, parkAssistSlot := 0 }
    else if slot_r ≠ 0 then
      { s2 with parkAssistLevel := slot_r, parkAssistSlot := 4 }
    else
      { s2 with parkAssistLevel := 0, parkAssistSlot := 2 }
  { s3 with needsRender := true }

/-- `GMParkAssist::processMessage`: the right nibble of `buf[0]` selects the
disable message (`0x0F`), the info message (`0x00`), or nothing at all. The
arbitration id is not used. -/
def processMessage (now : Nat) (s : State) (_arbId : Nat) (buf : Buf) : State :=
  let state : Nat := (buf 0).val &&& 0x0F
  if state = 0x0F then
    processParkAssistDisableMessage s
  else if state = 0x00 then
    processParkAssistInfoMessage now s buf
  else
    s

/-! ## Expiry check -/

/-- `GMParkAssist::shouldRender`. `PA_TIMEOUT` is a macro of `GMParkAssist.h`,
which is not among the sources, so it is a parameter here. Both tests are
written as in the source: the first disables when
`lastTimestamp + PA_TIMEOUT > now`, the second when the clock reads below the
stored timestamp and `now + (ULONG_MAX - lastTimestamp) > PA_TIMEOUT`; the
second test reads the members as the first one left them. The result pairs the
returned `bool` with the state left behind. -/
def shouldRender (PA_TIMEOUT : Nat) (now : Nat) (s : State) : Bool × State :=
  let s1 : State :=
    if s.lastTimestamp > 0 ∧ addUL s.lastTimestamp PA_TIMEOUT > now then
      processParkAssistDisableMessage s
    else
      s
  let s2 : State :=
    if s1.lastTimestamp > 0 ∧ now < s1.lastTimestamp
        ∧ addUL now (subUL ULONG_MAX s1.lastTimestamp) > PA_TIMEOUT then
      processParkAssistDisableMessage s1
    else
      s1
  (s2.needsRender || decide (s2.lastTimestamp > 0), s2)

/-- `GMParkAssist::canRender`: `return shouldRender();`. -/
def canRender (PA_TIMEOUT : Nat) (now : Nat) (s : State) : Bool × State :=
  shouldRender PA_TIMEOUT now s

/-! ## Rendering -/

/-- The two colours of the monochrome display. -/
inductive Color where
  | SSD1306_BLACK
  | SSD1306_WHITE
  deriving DecidableEq, Repr

/-- The calls made on the `Adafruit_SSD1306` display object, in order. -/
inductive DisplayCmd where
  | fillRect (x y w h : Int) (color : Color)
  | clearDisplay
  | setTextSize (n : Nat)
  | setTextColor (color : Color)
  | setFontFreeSans9pt7b
  | setCursor (x y : Int)
  | write (text : List Char)
  | display
  deriving DecidableEq, Repr

/-- Modelled from the spec: what `GMParkAssist.cpp` takes from files that are
not among the sources (`GMParkAssist.h`, `oled.h`, `TextHelper.h`): the
constructor argument `useImperial`, the screen and marker-bar geometry, the
blink tables indexed by level, the factor `CM_PER_IN` as the exact ratio
`CM_PER_IN_num / CM_PER_IN_den`, and the text measurement
`TextHelper::getTextBounds` as a function from the text to (width, height). -/
structure Config where
  useImperial : Bool
  SCREEN_WIDTH : Int
  SCREEN_HEIGHT : Int
  PA_BAR_H : Int
  PA_BAR_W : Int
  PA_BAR_MARGIN : Int
  PA_BAR_EXTRA_W : Int
  parkAssistDisplayMod : Nat → Nat
  parkAssistDisplayCompare : Nat → Nat
  CM_PER_IN_num : Nat
  CM_PER_IN_den : Nat
  getTextBounds : List Char → Nat × Nat

/-- Conversion of an `int` to `int16_t`. -/
def toInt16 (x : Int) : Int := (x + 32768) % 65536 - 32768

/-- The characters `snprintf(text, 11, ...)` leaves in `text`: the formatted
output cut to 10 characters. -/
def snprintf11 (formatted : List Char) : List Char := formatted.take 10

/-- Output of `%d` for a non-negative value. -/
def fmtD (n : Nat) : List Char := Nat.toDigits 10 n

/-- The text built by `GMParkAssist::renderDistance`. For imperial units the
inches are `static_cast<uint8_t>(lround(CM_PER_IN * parkAssistDistance))`,
with the product taken exactly and `lround` rounding halves away from zero,
then split into feet and inches. -/
def renderDistanceText (cfg : Config) (s : State) : List Char :=
  if cfg.useImperial then
    let inches0 : Nat :=
      ((2 * cfg.CM_PER_IN_num * s.parkAssistDistance + cfg.CM_PER_IN_den)
        / (2 * cfg.CM_PER_IN_den)) % 256
    let feet : Nat := inches0 / 12
    let inches : Nat := (inches0 + 256 - (feet * 12) % 256) % 256
    if feet > 0 then
      snprintf11 (fmtD feet ++ "ft ".toList ++ fmtD inches ++ "in".toList)
    else
      snprintf11 (fmtD inches ++ "in".toList)
  else
    snprintf11 (fmtD s.parkAssistDistance ++ "cm".toList)

/-- `GMParkAssist::renderDistance`: the display calls that write the distance
text, centred with the measured width and height. -/
def renderDistance (cfg : Config) (s : State) : List DisplayCmd :=
  let text : List Char := renderDistanceText cfg s
  let width : Nat := (cfg.getTextBounds text).1 % 65536
  let height : Nat := (cfg.getTextBounds text).2 % 65536
  [ DisplayCmd.setTextSize 1,
    DisplayCmd.setTextColor Color.SSD1306_WHITE,
    DisplayCmd.setFontFreeSans9pt7b,
    DisplayCmd.setCursor (Int.tdiv (toInt16 (cfg.SCREEN_WIDTH - width)) 2) (toInt16 height),
    DisplayCmd.write text ]

/-- `GMParkAssist::renderMarkerRectangle`: blank the marker strip, then draw
the marker when the level is 1..4 and the blink phase is in its "on" part. The
nested tests follow the short-circuit `&&` of the source. -/
def renderMarkerRectangle (cfg : Config) (now : Nat) (s : State) : List DisplayCmd :=
  let blank : DisplayCmd :=
    DisplayCmd.fillRect 0 (cfg.SCREEN_HEIGHT - cfg.PA_BAR_H) cfg.SCREEN_WIDTH cfg.PA_BAR_H
      Color.SSD1306_BLACK
  let marker : DisplayCmd :=
    DisplayCmd.fillRect (cfg.PA_BAR_MARGIN + cfg.PA_BAR_W * ((s.parkAssistSlot : Int) - 1))
      (cfg.SCREEN_HEIGHT - cfg.PA_BAR_H) (cfg.PA_BAR_W + cfg.PA_BAR_EXTRA_W) cfg.PA_BAR_H
      Color.SSD1306_WHITE
  if s.parkAssistLevel > 0 then
    if s.parkAssistLevel < 5 then
      if now % cfg.parkAssistDisplayMod s.parkAssistLevel
          < cfg.parkAssistDisplayCompare s.parkAssistLevel then
        [blank, marker]
      else
        [blank]
    else
      [blank]
  else
    [blank]

/-- `GMParkAssist::render`: the text is redrawn only when `needsRender` is
set, which is then cleared; the marker rectangle is drawn on every call. The
result pairs the state left behind with the display calls made. -/
def render (cfg : Config) (now : Nat) (s : State) : State × List DisplayCmd :=
  let textPass : State × List DisplayCmd :=
    if s.needsRender then
      ({ s with needsRender := false }, DisplayCmd.clearDisplay :: renderDistance cfg s)
    else
      (s, [])
  (textPass.1, textPass.2 ++ renderMarkerRectangle cfg now textPass.1 ++ [DisplayCmd.display])

/-! ## The remaining interface -/

/-- `GMParkAssist::recognizesArbId`; `GMLAN_MSG_PARK_ASSIST` is a macro of
`gmlan.h`, which is not among the sources, so it is a parameter. -/
def recognizesArbId (GMLAN_MSG_PARK_ASSIST : Nat) (arbId : Nat) : Bool :=
  decide (arbId = GMLAN_MSG_PARK_ASSIST)

/-- `GMParkAssist::getName`. -/
def getName : String := "GMParkAssist"

/-! ## The specification's precedence table -/

/-- The position / level arbitration as the specification words it (§4.2,
step 3), on the three nibbles `mid`, `right`, `left`; the result is
(level, slot). It is stated apart from the code and compared with
`processMessage` below. -/
def specPrecedenceTable (mid right left : Nat) : Nat × Nat :=
  if mid ≠ 0 then
    (mid, if left ≠ 0 then 1 else if right ≠ 0 then 3 else 2)
  else if left ≠ 0 then
    (left, 0)
  else if right ≠ 0 then
    (right, 4)
  else
    (0, 2)

/-! ## Reachable states -/

/-- One call made on the module by the control loop, with the clock reading
`millis()` returns during the call. -/
inductive Call where
  | processMessage (now : Nat) (arbId : Nat) (buf : Buf)
  | shouldRender (now : Nat)
  | canRender (now : Nat)
  | render (now : Nat)

/-- The state a call leaves behind. -/
def step (PA_TIMEOUT : Nat) (cfg : Config) (s : State) : Call → State
  | Call.processMessage now arbId buf => processMessage now s arbId buf
  | Call.shouldRender now => (shouldRender PA_TIMEOUT now s).2
  | Call.canRender now => (canRender PA_TIMEOUT now s).2
  | Call.render now => (render cfg now s).1

/-- The state reached from the all-inactive initial state by a sequence of
calls, first call first. -/
def run (PA_TIMEOUT : Nat) (cfg : Config) (calls : List Call) : State :=
  calls.foldl (step PA_TIMEOUT cfg) State.initial

/-- The sensor nibbles of an info payload carry only the values the source
documents for them ("0 = nothing seen" up to "4 = far"): mid, right and left
are each at most 4. Calls other than an info message satisfy it trivially. -/
def Call.documentedLevels : Call → Prop
  | Call.processMessage _ _ buf =>
      (buf 0).val % 16 = 0 →
        (buf 2).val / 16 ≤ 4 ∧ (buf 2).val % 16 ≤ 4 ∧ (buf 3).val % 16 ≤ 4
  | _ => True

/-- A sample configuration for concrete evaluations: a 128 x 32 screen, a
marker bar of 24 x 4 pixels, a blink period of 1000 ms of which 500 ms are on
at every level, `CM_PER_IN = 393701 / 1000000` and a text measurement of 10
pixels per character, 13 pixels high. -/
def sampleConfig : Config :=
  { useImperial := false, SCREEN_WIDTH := 128, SCREEN_HEIGHT := 32, PA_BAR_H := 4,
    PA_BAR_W := 24, PA_BAR_MARGIN := 4, PA_BAR_EXTRA_W := 0,
    parkAssistDisplayMod := fun _ => 1000, parkAssistDisplayCompare := fun _ => 500,
    CM_PER_IN_num := 393701, CM_PER_IN_den := 1000000,
    getTextBounds := fun text => (10 * text.length, 13) }

/-! ## Constants and texts named by the specification -/

/-- Modelled from the spec: the macro `GMLAN_MSG_PARK_ASSIST` of `gmlan.h`,
which is not among the sources; the value is the one the docstring of
`recognizesArbId` gives ("This module only processes Arb ID 0x1D4"). -/
def GMLAN_MSG_PARK_ASSIST : Nat := 0x1D4

/-- The metric text the specification describes: the decimal representation
of `d` followed by "cm". -/
def specMetricText (d : Nat) : List Char := (toString d).toList ++ "cm".toList

/-! ## Nibble extraction -/

theorem low_nibble_eq_mod (b : Fin 256) : b.val &&& 0x0F = b.val % 16 := by
  have h : (0x0F : Nat) = 2 ^ 4 - 1 := by norm_num
  rw [h, Nat.and_pow_two_sub_one_eq_mod]

set_option maxRecDepth 100000 in
theorem high_nibble_eq_div (b : Fin 256) : (b.val &&& 0xF0) >>> 4 = b.val / 16 := by
  revert b
  decide

/-! ## How `processMessage` dispatches -/

theorem processMessage_eq_info (now : Nat) (s : State) (arbId : Nat) (buf : Buf)
    (hmode : (buf 0).val % 16 = 0) :
    processMessage now s arbId buf = processParkAssistInfoMessage now s buf := by
  have hm : (buf 0).val &&& 0x0F = 0 := by rw [low_nibble_eq_mod]; exact hmode
  simp [processMessage, hm]

theorem processMessage_eq_disable (now : Nat) (s : State) (arbId : Nat) (buf : Buf)
    (hmode : (buf 0).val % 16 = 0xF) :
    processMessage now s arbId buf = State.initial := by
  have hm : (buf 0).val &&& 0x0F = 0x0F := by rw [low_nibble_eq_mod]; exact hmode
  simp [processMessage, hm, processParkAssistDisableMessage, State.initial]

theorem processMessage_eq_self (now : Nat) (s : State) (arbId : Nat) (buf : Buf)
    (h0 : (buf 0).val % 16 ≠ 0x0) (hF : (buf 0).val % 16 ≠ 0xF) :
    processMessage now s arbId buf = s := by
  have hm : (buf 0).val &&& 0x0F = (buf 0).val % 16 := low_nibble_eq_mod (buf 0)
  simp [processMessage, hm, h0, hF]

theorem info_level_slot_table (now : Nat) (s : State) (buf : Buf) :
    ((processParkAssistInfoMessage now s buf).parkAssistLevel,
        (processParkAssistInfoMessage now s buf).parkAssistSlot)
      = specPrecedenceTable ((buf 2).val / 16) ((buf 2).val % 16) ((buf 3).val % 16) := by
  unfold processParkAssistInfoMessage specPrecedenceTable
  simp only [high_nibble_eq_div, low_nibble_eq_mod]
  by_cases hmid : (buf 2).val / 16 = 0 <;> by_cases hl : (buf 3).val % 16 = 0 <;>
    by_cases hr : (buf 2).val % 16 = 0 <;> simp [hmid, hl, hr]

theorem info_lastTimestamp (now : Nat) (s : State) (buf : Buf) :
    (processParkAssistInfoMessage now s buf).lastTimestamp = orUL now 1 := by
  unfold processParkAssistInfoMessage
  simp only []
  split_ifs <;> rfl

theorem info_needsRender (now : Nat) (s : State) (buf : Buf) :
    (processParkAssistInfoMessage now s buf).needsRender = true := rfl

theorem info_slot_le_four (now : Nat) (s : State) (buf : Buf) :
    (processParkAssistInfoMessage now s buf).parkAssistSlot ≤ 4 := by
  have h := congrArg Prod.snd (info_level_slot_table now s buf)
  simp only [specPrecedenceTable] at h
  split_ifs at h <;> simp only [] at h <;> omega

theorem or_one_eq (n : Nat) : n ||| 1 = 2 * (n / 2) + 1 := by
  have hmod : (n ||| 1) % 2 = 1 := Nat.or_mod_two_eq_one.mpr (Or.inr rfl)
  have hdiv : (n ||| 1) / 2 = n / 2 := by
    rw [Nat.or_div_two]
    simp
  have hsplit := Nat.div_add_mod (n ||| 1) 2
  omega

theorem orUL_one_odd (now : Nat) : orUL now 1 % 2 = 1 := by
  rw [orUL, or_one_eq, ULONG_RANGE]
  omega

theorem shouldRender_state_cases (T now : Nat) (s : State) :
    (shouldRender T now s).2 = s ∨ (shouldRender T now s).2 = State.initial := by
  simp only [shouldRender]
  split_ifs <;> simp [processParkAssistDisableMessage, State.initial]

theorem render_state (cfg : Config) (now : Nat) (s : State) :
    (render cfg now s).1 = { s with needsRender := false } := by
  simp only [render]
  split_ifs with h
  · rfl
  · cases s
    simp_all

/-! ## Decoder properties -/

/-- C1: an info message (mode nibble `0x0`) sets (level, slot) to the
specification's precedence table applied to mid = high nibble of byte 2,
right = low nibble of byte 2, left = low nibble of byte 3, whatever the prior
state; in particular the six literal cases of the specification hold. -/
theorem processMessage_info_level_slot (now : Nat) (s : State) (arbId : Nat) (buf : Buf)
    (hmode : (buf 0).val % 16 = 0) :
    ((processMessage now s arbId buf).parkAssistLevel,
        (processMessage now s arbId buf).parkAssistSlot)
      = specPrecedenceTable ((buf 2).val / 16) ((buf 2).val % 16) ((buf 3).val % 16)
    ∧ (buf 2 = 0x22 → buf 3 = 0x00 →
        (processMessage now s arbId buf).parkAssistLevel = 2
          ∧ (processMessage now s arbId buf).parkAssistSlot = 3)
    ∧ (buf 2 = 0x20 → buf 3 = 0x02 →
        (processMessage now s arbId buf).parkAssistLevel = 2
          ∧ (processMessage now s arbId buf).parkAssistSlot = 1)
    ∧ (buf 2 = 0x30 → buf 3 = 0x00 →
        (processMessage now s arbId buf).parkAssistLevel = 3
          ∧ (processMessage now s arbId buf).parkAssistSlot = 2)
    ∧ (buf 2 = 0x00 → buf 3 = 0x01 →
        (processMessage now s arbId buf).parkAssistLevel = 1
          ∧ (processMessage now s arbId buf).parkAssistSlot = 0)
    ∧ (buf 2 = 0x04 → buf 3 = 0x00 →
        (processMessage now s arbId buf).parkAssistLevel = 4
          ∧ (processMessage now s arbId buf).parkAssistSlot = 4)
    ∧ (buf 2 = 0x00 → buf 3 = 0x00 →
        (processMessage now s arbId buf).parkAssistLevel = 0
          ∧ (processMessage now s arbId buf).parkAssistSlot = 2) := by
  have hm : (buf 0).val &&& 0x0F = 0 := by rw [low_nibble_eq_mod]; exact hmode
  have hstep : processMessage now s arbId buf = processParkAssistInfoMessage now s buf := by
    simp [processMessage, hm]
  have htable :
      ((processParkAssistInfoMessage now s buf).parkAssistLevel,
          (processParkAssistInfoMessage now s buf).parkAssistSlot)
        = specPrecedenceTable ((buf 2).val / 16) ((buf 2).val % 16) ((buf 3).val % 16) := by
    unfold processParkAssistInfoMessage specPrecedenceTable
    simp only [high_nibble_eq_div, low_nibble_eq_mod]
    by_cases hmid : (buf 2).val / 16 = 0 <;> by_cases hl : (buf 3).val % 16 = 0 <;>
      by_cases hr : (buf 2).val % 16 = 0 <;> simp [hmid, hl, hr]
  rw [hstep]
  refine ⟨htable, ?_, ?_, ?_, ?_, ?_, ?_⟩ <;>
    · intro h2 h3
      have := htable
      rw [h2, h3] at this
      simpa [specPrecedenceTable, Prod.ext_iff] using this

/-- Witness of C1 on `buf[2] = 0x22`, `buf[3] = 0x00`: level 2 at mid-right. -/
theorem processMessage_info_level_slot_witness :
    ((![0x00, 0x50, 0x22, 0x00, 0, 0, 0, 0] : Buf) 0).val % 16 = 0
    ∧ (processMessage 1000 State.initial 0x1D4
          ![0x00, 0x50, 0x22, 0x00, 0, 0, 0, 0]).parkAssistLevel = 2
    ∧ (processMessage 1000 State.initial 0x1D4
          ![0x00, 0x50, 0x22, 0x00, 0, 0, 0, 0]).parkAssistSlot = 3 :=
  ⟨by decide,
    (processMessage_info_level_slot 1000 State.initial 0x1D4
      ![0x00, 0x50, 0x22, 0x00, 0, 0, 0, 0] (by decide)).2.1 rfl rfl⟩

/-- C2: a disable message (mode nibble `0xF`, any high nibble, any other
bytes) leaves the module fully inactive whatever the prior state: level,
slot and distance 0, `needsRender` false, `lastTimestamp` the sentinel 0. -/
theorem processMessage_disable_clears (now : Nat) (s : State) (arbId : Nat) (buf : Buf)
    (hmode : (buf 0).val % 16 = 0xF) :
    (processMessage now s arbId buf).parkAssistLevel = 0
    ∧ (processMessage now s arbId buf).parkAssistSlot = 0
    ∧ (processMessage now s arbId buf).parkAssistDistance = 0
    ∧ (processMessage now s arbId buf).needsRender = false
    ∧ (processMessage now s arbId buf).lastTimestamp = 0 := by
  have hm : (buf 0).val &&& 0x0F = 0x0F := by rw [low_nibble_eq_mod]; exact hmode
  simp [processMessage, hm, processParkAssistDisableMessage]

/-- Witness of C2: an active, dirty state and a payload `0x3F ...`. -/
theorem processMessage_disable_clears_witness :
    ((![0x3F, 0x50, 0x22, 0x01, 9, 9, 9, 9] : Buf) 0).val % 16 = 0xF
    ∧ processMessage 1000
        (State.mk 901 80 2 3 true)
        0x1D4 ![0x3F, 0x50, 0x22, 0x01, 9, 9, 9, 9] = State.initial := by
  refine ⟨by decide, ?_⟩
  have h := processMessage_disable_clears 1000
    (State.mk 901 80 2 3 true)
    0x1D4 ![0x3F, 0x50, 0x22, 0x01, 9, 9, 9, 9] (by decide)
  obtain ⟨h1, h2, h3, h4, h5⟩ := h
  generalize processMessage 1000 _ 0x1D4 ![0x3F, 0x50, 0x22, 0x01, 9, 9, 9, 9] = r at *
  cases r
  simp_all [State.initial]

/-- C3: after an info message (mode nibble `0x0`) the stored distance is byte 1
of the payload, unscaled and unclamped, and `needsRender` is true, whatever the
prior state and the clock reading. -/
theorem processMessage_info_distance_dirty (now : Nat) (s : State) (arbId : Nat) (buf : Buf)
    (hmode : (buf 0).val % 16 = 0) :
    (processMessage now s arbId buf).parkAssistDistance = (buf 1).val
    ∧ (processMessage now s arbId buf).needsRender = true := by
  have hm : (buf 0).val &&& 0x0F = 0 := by rw [low_nibble_eq_mod]; exact hmode
  have hstep : processMessage now s arbId buf = processParkAssistInfoMessage now s buf := by
    simp [processMessage, hm]
  rw [hstep]
  unfold processParkAssistInfoMessage
  constructor
  · simp only []
    split_ifs <;> rfl
  · rfl

/-- Witness of C3: distance byte `0xFF` on a clean idle state. -/
theorem processMessage_info_distance_dirty_witness :
    ((![0xA0, 0xFF, 0x00, 0x03, 0, 0, 0, 0] : Buf) 0).val % 16 = 0
    ∧ (processMessage 4294967295 State.initial 0x1D4
          ![0xA0, 0xFF, 0x00, 0x03, 0, 0, 0, 0]).parkAssistDistance = 255
    ∧ (processMessage 4294967295 State.initial 0x1D4
          ![0xA0, 0xFF, 0x00, 0x03, 0, 0, 0, 0]).needsRender = true :=
  ⟨by decide,
    processMessage_info_distance_dirty 4294967295 State.initial 0x1D4
      ![0xA0, 0xFF, 0x00, 0x03, 0, 0, 0, 0] (by decide)⟩

/-- C4: a payload whose mode nibble is neither `0x0` nor `0xF` changes no
state field; `processMessage` is a total function, so it cannot fail. -/
theorem processMessage_unknown_mode_unchanged (now : Nat) (s : State) (arbId : Nat)
    (buf : Buf) (h0 : (buf 0).val % 16 ≠ 0x0) (hF : (buf 0).val % 16 ≠ 0xF) :
    processMessage now s arbId buf = s := by
  have hm : (buf 0).val &&& 0x0F = (buf 0).val % 16 := low_nibble_eq_mod (buf 0)
  simp [processMessage, hm, h0, hF]

/-- Witness of C4: mode nibble `0x7` on an active, dirty state. -/
theorem processMessage_unknown_mode_unchanged_witness :
    ((![0x07, 0x50, 0x22, 0x01, 0, 0, 0, 0] : Buf) 0).val % 16 ≠ 0x0
    ∧ ((![0x07, 0x50, 0x22, 0x01, 0, 0, 0, 0] : Buf) 0).val % 16 ≠ 0xF
    ∧ processMessage 1000
        (State.mk 901 80 2 3 true)
        0x1D4 ![0x07, 0x50, 0x22, 0x01, 0, 0, 0, 0]
      = (State.mk 901 80 2 3 true) :=
  ⟨by decide, by decide,
    processMessage_unknown_mode_unchanged 1000 _ 0x1D4
      ![0x07, 0x50, 0x22, 0x01, 0, 0, 0, 0] (by decide) (by decide)⟩

/-! ## Expiry-check properties -/

theorem processMessage_info_lastTimestamp (now : Nat) (s : State) (arbId : Nat) (buf : Buf)
    (hmode : (buf 0).val % 16 = 0) :
    (processMessage now s arbId buf).lastTimestamp = orUL now 1 := by
  have hm : (buf 0).val &&& 0x0F = 0 := by rw [low_nibble_eq_mod]; exact hmode
  have hstep : processMessage now s arbId buf = processParkAssistInfoMessage now s buf := by
    simp [processMessage, hm]
  rw [hstep]
  unfold processParkAssistInfoMessage
  simp only []
  split_ifs <;> rfl

/-- C5, the code at the failing inputs: whenever the timeout is positive and
the clock is not about to wrap (`now + 1 + PA_TIMEOUT < 2 ^ 32`), an info
message at tick `now` followed by `shouldRender` at the same tick finds
`lastTimestamp + PA_TIMEOUT > now`, clears the whole state and returns
`false`. -/
theorem shouldRender_after_info_same_tick (T now : Nat) (s : State) (arbId : Nat) (buf : Buf)
    (hmode : (buf 0).val % 16 = 0) (hT : 0 < T) (hnow : now + 1 + T < 2 ^ 32) :
    shouldRender T now (processMessage now s arbId buf) = (false, State.initial) := by
  have hts := processMessage_info_lastTimestamp now s arbId buf hmode
  have hor := or_one_eq now
  have hval : (processMessage now s arbId buf).lastTimestamp = 2 * (now / 2) + 1 := by
    rw [hts, orUL, hor, ULONG_RANGE]
    apply Nat.mod_eq_of_lt
    omega
  have hfirst : (processMessage now s arbId buf).lastTimestamp > 0
      ∧ addUL (processMessage now s arbId buf).lastTimestamp T > now := by
    rw [hval, addUL, ULONG_RANGE]
    constructor
    · omega
    · rw [Nat.mod_eq_of_lt (by omega)]
      omega
  simp [shouldRender, hfirst, processParkAssistDisableMessage, State.initial]

/-- Witness of C5's evaluation: `PA_TIMEOUT = 5000`, tick 1000, distance 0x50,
mid and right at level 2. -/
theorem shouldRender_after_info_same_tick_witness :
    ((![0x00, 0x50, 0x22, 0x00, 0, 0, 0, 0] : Buf) 0).val % 16 = 0
    ∧ 0 < 5000 ∧ 1000 + 1 + 5000 < 2 ^ 32
    ∧ shouldRender 5000 1000
        (processMessage 1000 State.initial 0x1D4 ![0x00, 0x50, 0x22, 0x00, 0, 0, 0, 0])
      = (false, State.initial) :=
  ⟨by decide, by decide, by decide,
    shouldRender_after_info_same_tick 5000 1000 State.initial 0x1D4
      ![0x00, 0x50, 0x22, 0x00, 0, 0, 0, 0] (by decide) (by decide) (by decide)⟩

/-- C6, the code at the failing inputs: for an active state whose timestamp
`t` is not after `now`, with `now - t < PA_TIMEOUT` (not yet timed out) and
`t + PA_TIMEOUT` below `2 ^ 32`, `shouldRender` clears the whole state and
returns `false`. -/
theorem shouldRender_within_timeout_no_wrap (T now : Nat) (s : State)
    (hactive : 0 < s.lastTimestamp) (hle : s.lastTimestamp ≤ now)
    (hfresh : now - s.lastTimestamp < T) (hno : s.lastTimestamp + T < 2 ^ 32) :
    shouldRender T now s = (false, State.initial) := by
  have hfirst : s.lastTimestamp > 0 ∧ addUL s.lastTimestamp T > now := by
    rw [addUL, ULONG_RANGE, Nat.mod_eq_of_lt hno]
    omega
  simp [shouldRender, hfirst, processParkAssistDisableMessage, State.initial]

/-- Witness of C6's evaluation: timestamp 1001, clock 1500, `PA_TIMEOUT = 5000`. -/
theorem shouldRender_within_timeout_no_wrap_witness :
    shouldRender 5000 1500
        (State.mk 1001 80 2 3 false)
      = (false, State.initial) :=
  shouldRender_within_timeout_no_wrap 5000 1500
    (State.mk 1001 80 2 3 false)
    (by decide) (by decide) (by decide) (by decide)

/-- C7, the code at the failing inputs: for an active state whose timestamp
`t` is not after `now`, with `now - t ≥ PA_TIMEOUT` (timed out, no clock
wrap), `shouldRender` changes nothing and returns `true`. -/
theorem shouldRender_expired_no_wrap (T now : Nat) (s : State)
    (hactive : 0 < s.lastTimestamp) (hle : s.lastTimestamp ≤ now)
    (hexpired : T ≤ now - s.lastTimestamp) (hnow : now < 2 ^ 32) :
    shouldRender T now s = (true, s) := by
  have hfirst : ¬ (s.lastTimestamp > 0 ∧ addUL s.lastTimestamp T > now) := by
    rw [addUL, ULONG_RANGE, Nat.mod_eq_of_lt (by omega)]
    omega
  have hsecond : ¬ (s.lastTimestamp > 0 ∧ now < s.lastTimestamp
      ∧ addUL now (subUL ULONG_MAX s.lastTimestamp) > T) := by
    omega
  have hpos : decide (s.lastTimestamp > 0) = true := decide_eq_true hactive
  simp only [shouldRender, if_neg hfirst, if_neg hsecond, hpos, Bool.or_true]

/-- Witness of C7's evaluation: timestamp 1001, clock 60000, `PA_TIMEOUT = 5000`. -/
theorem shouldRender_expired_no_wrap_witness :
    shouldRender 5000 60000
        (State.mk 1001 80 2 3 false)
      = (true, (State.mk 1001 80 2 3 false)) :=
  shouldRender_expired_no_wrap 5000 60000
    (State.mk 1001 80 2 3 false)
    (by decide) (by decide) (by decide) (by decide)

/-- C8, the code at the failing inputs: the clock has wrapped below the
timestamp `t` (`0 < now < t`) and the elapsed time `(now - t) mod 2 ^ 32` is
exactly `PA_TIMEOUT + 1`, which exceeds the timeout; `shouldRender` changes
nothing and returns `true`, because `now + (ULONG_MAX - t)` is one less than
the elapsed time. -/
theorem shouldRender_wrapped_one_past_timeout (T now : Nat) (s : State)
    (hrange : s.lastTimestamp < 2 ^ 32) (hwrap : now < s.lastTimestamp) (hnow : 0 < now)
    (helapsed : subUL now s.lastTimestamp = T + 1) :
    shouldRender T now s = (true, s) := by
  have hel : now + 2 ^ 32 - s.lastTimestamp = T + 1 := by
    unfold subUL ULONG_RANGE at helapsed
    rw [Nat.mod_eq_of_lt (by omega : now < 2 ^ 32),
      Nat.mod_eq_of_lt hrange, Nat.mod_eq_of_lt (by omega)] at helapsed
    exact helapsed
  have hfirst : ¬ (s.lastTimestamp > 0 ∧ addUL s.lastTimestamp T > now) := by
    have hsum : s.lastTimestamp + T = (now - 1) + 2 ^ 32 := by omega
    rw [addUL, ULONG_RANGE, hsum, Nat.add_mod_right, Nat.mod_eq_of_lt (by omega)]
    omega
  have hsecond : ¬ (s.lastTimestamp > 0 ∧ now < s.lastTimestamp
      ∧ addUL now (subUL ULONG_MAX s.lastTimestamp) > T) := by
    have hsub : subUL ULONG_MAX s.lastTimestamp = 2 ^ 32 - 1 - s.lastTimestamp := by
      unfold subUL ULONG_MAX ULONG_RANGE
      rw [Nat.mod_eq_of_lt (by omega : 2 ^ 32 - 1 < 2 ^ 32), Nat.mod_eq_of_lt hrange]
      have hsplit : 2 ^ 32 - 1 + 2 ^ 32 - s.lastTimestamp
          = (2 ^ 32 - 1 - s.lastTimestamp) + 2 ^ 32 := by omega
      rw [hsplit, Nat.add_mod_right, Nat.mod_eq_of_lt (by omega)]
    rw [hsub, addUL, ULONG_RANGE, Nat.mod_eq_of_lt (by omega)]
    omega
  have hpos : decide (s.lastTimestamp > 0) = true := decide_eq_true (by omega)
  simp only [shouldRender, if_neg hfirst, if_neg hsecond, hpos, Bool.or_true]

/-- Witness of C8's evaluation: timestamp `ULONG_MAX`, clock 5000,
`PA_TIMEOUT = 5000`, elapsed time 5001. -/
theorem shouldRender_wrapped_one_past_timeout_witness :
    subUL 5000 4294967295 = 5000 + 1
    ∧ shouldRender 5000 5000
        (State.mk 4294967295 80 2 3 false)
      = (true, (State.mk 4294967295 80 2 3 false)) :=
  ⟨by decide,
    shouldRender_wrapped_one_past_timeout 5000 5000
      (State.mk 4294967295 80 2 3 false)
      (by decide) (by decide) (by decide) (by decide)⟩

/-- C9: the value `shouldRender` returns is `needsRender || lastTimestamp ≠ 0`
read on the state it leaves behind (after any expiry transition), and
`canRender` returns the same value and leaves the same state. -/
theorem shouldRender_returns_dirty_or_active (T now : Nat) (s : State) :
    (shouldRender T now s).1
      = ((shouldRender T now s).2.needsRender
          || decide ((shouldRender T now s).2.lastTimestamp ≠ 0))
    ∧ canRender T now s = shouldRender T now s := by
  refine ⟨?_, rfl⟩
  simp only [shouldRender, Nat.pos_iff_ne_zero]

/-! ## Level invariant -/

theorem processMessage_level_cases (now : Nat) (s : State) (arbId : Nat) (buf : Buf) :
    (processMessage now s arbId buf).parkAssistLevel = s.parkAssistLevel
    ∨ (processMessage now s arbId buf).parkAssistLevel = 0
    ∨ ((buf 0).val % 16 = 0 ∧
        ((processMessage now s arbId buf).parkAssistLevel = (buf 2).val / 16
          ∨ (processMessage now s arbId buf).parkAssistLevel = (buf 2).val % 16
          ∨ (processMessage now s arbId buf).parkAssistLevel = (buf 3).val % 16)) := by
  by_cases hF : (buf 0).val % 16 = 0xF
  · right; left
    rw [processMessage_eq_disable now s arbId buf hF]
    rfl
  · by_cases h0 : (buf 0).val % 16 = 0
    · right; right
      refine ⟨h0, ?_⟩
      rw [processMessage_eq_info now s arbId buf h0]
      have hl := congrArg Prod.fst (info_level_slot_table now s buf)
      simp only [specPrecedenceTable] at hl
      split_ifs at hl <;> simp only [] at hl <;> omega
    · left
      rw [processMessage_eq_self now s arbId buf h0 hF]

theorem shouldRender_level_cases (T now : Nat) (s : State) :
    (shouldRender T now s).2.parkAssistLevel = s.parkAssistLevel
    ∨ (shouldRender T now s).2.parkAssistLevel = 0 := by
  simp only [shouldRender]
  split_ifs <;> simp [processParkAssistDisableMessage]

theorem render_level (cfg : Config) (now : Nat) (s : State) :
    (render cfg now s).1.parkAssistLevel = s.parkAssistLevel := by
  simp only [render]
  split_ifs <;> rfl

theorem step_level_le_fifteen (T : Nat) (cfg : Config) (s : State) (c : Call)
    (hs : s.parkAssistLevel ≤ 15) : (step T cfg s c).parkAssistLevel ≤ 15 := by
  cases c with
  | processMessage now arbId buf =>
    have h := processMessage_level_cases now s arbId buf
    have h2 : (buf 2).val < 256 := (buf 2).isLt
    simp only [step]
    omega
  | shouldRender now =>
    have h := shouldRender_level_cases T now s
    simp only [step]
    omega
  | canRender now =>
    have h := shouldRender_level_cases T now s
    simp only [step, canRender]
    omega
  | render now =>
    simp only [step, render_level]
    exact hs

theorem step_level_le_four (T : Nat) (cfg : Config) (s : State) (c : Call)
    (hc : c.documentedLevels) (hs : s.parkAssistLevel ≤ 4) :
    (step T cfg s c).parkAssistLevel ≤ 4 := by
  cases c with
  | processMessage now arbId buf =>
    have h := processMessage_level_cases now s arbId buf
    simp only [Call.documentedLevels] at hc
    simp only [step]
    omega
  | shouldRender now =>
    have h := shouldRender_level_cases T now s
    simp only [step]
    omega
  | canRender now =>
    have h := shouldRender_level_cases T now s
    simp only [step, canRender]
    omega
  | render now =>
    simp only [step, render_level]
    exact hs

theorem foldl_level_le_fifteen (T : Nat) (cfg : Config) (calls : List Call) (s : State)
    (hs : s.parkAssistLevel ≤ 15) :
    (calls.foldl (step T cfg) s).parkAssistLevel ≤ 15 := by
  induction calls generalizing s with
  | nil => exact hs
  | cons c rest ih => exact ih (step T cfg s c) (step_level_le_fifteen T cfg s c hs)

theorem foldl_level_le_four (T : Nat) (cfg : Config) (calls : List Call) (s : State)
    (hcalls : ∀ c ∈ calls, c.documentedLevels) (hs : s.parkAssistLevel ≤ 4) :
    (calls.foldl (step T cfg) s).parkAssistLevel ≤ 4 := by
  induction calls generalizing s with
  | nil => exact hs
  | cons c rest ih =>
    exact ih (step T cfg s c) (fun d hd => hcalls d (List.mem_cons_of_mem c hd))
      (step_level_le_four T cfg s c (hcalls c (List.mem_cons_self c rest)) hs)

/-- C10 as stated fails: one info message whose mid nibble is 5 (`buf[2] = 0x50`)
takes the initial state to level 5, for every timeout and configuration. -/
theorem level_invariant_counterexample :
    ¬ (∀ (T : Nat) (cfg : Config) (calls : List Call), (run T cfg calls).parkAssistLevel ≤ 4) := by
  intro h
  have h5 := h 5000 sampleConfig
    [Call.processMessage 1000 0x1D4 ![0x00, 0x50, 0x50, 0x00, 0, 0, 0, 0]]
  revert h5
  decide

/-- C10, amended: in every state reachable from the all-inactive initial state
by any sequence of `processMessage`, `shouldRender`, `canRender` and `render`
calls at any clock readings, the level is at most 15 (it is a nibble of the
payload); and when every info payload carries only the documented nibble
values 0..4 in mid, right and left, the level is in [0,4]. -/
theorem level_invariant (T : Nat) (cfg : Config) (calls : List Call) :
    (run T cfg calls).parkAssistLevel ≤ 15
    ∧ ((∀ c ∈ calls, c.documentedLevels) → (run T cfg calls).parkAssistLevel ≤ 4) :=
  ⟨foldl_level_le_fifteen T cfg calls State.initial (by decide),
    fun hcalls => foldl_level_le_four T cfg calls State.initial hcalls (by decide)⟩

/-- Witness of C10, amended: an info message with mid = right = 2, a render, an
expiry check and a second info message with left = 4 keep the level within
[0,4]. -/
theorem level_invariant_witness :
    (run 5000 sampleConfig
        [Call.processMessage 1000 0x1D4 ![0x00, 0x50, 0x22, 0x00, 0, 0, 0, 0],
          Call.render 1000,
          Call.shouldRender 7000,
          Call.processMessage 7001 0x1D4 ![0x00, 0x90, 0x00, 0x04, 0, 0, 0, 0]]).parkAssistLevel
      ≤ 4 :=
  (level_invariant 5000 sampleConfig
      [Call.processMessage 1000 0x1D4 ![0x00, 0x50, 0x22, 0x00, 0, 0, 0, 0],
        Call.render 1000,
        Call.shouldRender 7000,
        Call.processMessage 7001 0x1D4 ![0x00, 0x90, 0x00, 0x04, 0, 0, 0, 0]]).2
    (by
      intro c hc
      simp only [List.mem_cons, List.mem_singleton, List.not_mem_nil, or_false] at hc
      rcases hc with rfl | rfl | rfl | rfl
      · intro _; decide
      · trivial
      · trivial
      · intro _; decide)

/-! ## Slot invariant -/

theorem step_slot_le_four (T : Nat) (cfg : Config) (s : State) (c : Call)
    (hs : s.parkAssistSlot ≤ 4) : (step T cfg s c).parkAssistSlot ≤ 4 := by
  cases c with
  | processMessage now arbId buf =>
    simp only [step]
    by_cases hF : (buf 0).val % 16 = 0xF
    · rw [processMessage_eq_disable now s arbId buf hF]
      decide
    · by_cases h0 : (buf 0).val % 16 = 0
      · rw [processMessage_eq_info now s arbId buf h0]
        exact info_slot_le_four now s buf
      · rw [processMessage_eq_self now s arbId buf h0 hF]
        exact hs
  | shouldRender now =>
    simp only [step]
    rcases shouldRender_state_cases T now s with h | h <;> rw [h]
    · exact hs
    · decide
  | canRender now =>
    simp only [step, canRender]
    rcases shouldRender_state_cases T now s with h | h <;> rw [h]
    · exact hs
    · decide
  | render now =>
    simp only [step, render_state]
    exact hs

theorem foldl_slot_le_four (T : Nat) (cfg : Config) (calls : List Call) (s : State)
    (hs : s.parkAssistSlot ≤ 4) :
    (calls.foldl (step T cfg) s).parkAssistSlot ≤ 4 := by
  induction calls generalizing s with
  | nil => exact hs
  | cons c rest ih => exact ih (step T cfg s c) (step_slot_le_four T cfg s c hs)

/-- C11: in every state reachable from the all-inactive initial state by any
sequence of `processMessage` (any payload), `shouldRender`, `canRender` and
`render` calls at any clock readings, the slot is in [0,4]. -/
theorem slot_invariant (T : Nat) (cfg : Config) (calls : List Call) :
    0 ≤ (run T cfg calls).parkAssistSlot ∧ (run T cfg calls).parkAssistSlot ≤ 4 :=
  ⟨Nat.zero_le _, foldl_slot_le_four T cfg calls State.initial (by decide)⟩

/-! ## Timestamp of an info message -/

/-- C16: for every prior state, every info payload (mode nibble `0x0`) and
every clock reading `now` of the 32-bit clock, the timestamp `processMessage`
stores is never the sentinel 0: it is `now` with its lowest bit forced to 1
(same upper bits, `now ||| 1`), so it is odd, not below `now` and at most one
tick above it, and still a 32-bit value. -/
theorem processMessage_info_timestamp (now : Nat) (s : State) (arbId : Nat) (buf : Buf)
    (hmode : (buf 0).val % 16 = 0) (hnow : now < 2 ^ 32) :
    (processMessage now s arbId buf).lastTimestamp ≠ 0
    ∧ (processMessage now s arbId buf).lastTimestamp = now ||| 1
    ∧ (processMessage now s arbId buf).lastTimestamp / 2 = now / 2
    ∧ (processMessage now s arbId buf).lastTimestamp % 2 = 1
    ∧ now ≤ (processMessage now s arbId buf).lastTimestamp
    ∧ (processMessage now s arbId buf).lastTimestamp ≤ now + 1
    ∧ (processMessage now s arbId buf).lastTimestamp < 2 ^ 32 := by
  have hts : (processMessage now s arbId buf).lastTimestamp = now ||| 1 := by
    rw [processMessage_eq_info now s arbId buf hmode, info_lastTimestamp, orUL, ULONG_RANGE]
    apply Nat.mod_eq_of_lt
    rw [or_one_eq]
    omega
  have hor := or_one_eq now
  refine ⟨?_, hts, ?_, ?_, ?_, ?_, ?_⟩ <;> rw [hts, hor] <;> omega

/-- Witness of C16 at the two ends of the clock: `now = 0` stores 1 and
`now = 2 ^ 32 - 1` stores `2 ^ 32 - 1`. -/
theorem processMessage_info_timestamp_witness :
    (processMessage 0 State.initial 0x1D4
        ![0x00, 0x50, 0x22, 0x00, 0, 0, 0, 0]).lastTimestamp = 1
    ∧ (processMessage 4294967295 State.initial 0x1D4
        ![0x00, 0x50, 0x22, 0x00, 0, 0, 0, 0]).lastTimestamp = 4294967295 :=
  ⟨(processMessage_info_timestamp 0 State.initial 0x1D4
      ![0x00, 0x50, 0x22, 0x00, 0, 0, 0, 0] (by decide) (by decide)).2.1,
    (processMessage_info_timestamp 4294967295 State.initial 0x1D4
      ![0x00, 0x50, 0x22, 0x00, 0, 0, 0, 0] (by decide) (by decide)).2.1⟩

/-! ## Idle means cleared -/

theorem step_idle_cleared (T : Nat) (cfg : Config) (s : State) (c : Call)
    (hs : s.lastTimestamp = 0 → s = State.initial) :
    (step T cfg s c).lastTimestamp = 0 → step T cfg s c = State.initial := by
  cases c with
  | processMessage now arbId buf =>
    simp only [step]
    by_cases hF : (buf 0).val % 16 = 0xF
    · rw [processMessage_eq_disable now s arbId buf hF]
      exact fun _ => rfl
    · by_cases h0 : (buf 0).val % 16 = 0
      · rw [processMessage_eq_info now s arbId buf h0]
        intro hzero
        have hodd := orUL_one_odd now
        rw [info_lastTimestamp] at hzero
        omega
      · rw [processMessage_eq_self now s arbId buf h0 hF]
        exact hs
  | shouldRender now =>
    simp only [step]
    rcases shouldRender_state_cases T now s with h | h <;> rw [h]
    · exact hs
    · exact fun _ => rfl
  | canRender now =>
    simp only [step, canRender]
    rcases shouldRender_state_cases T now s with h | h <;> rw [h]
    · exact hs
    · exact fun _ => rfl
  | render now =>
    simp only [step, render_state]
    intro hzero
    rw [hs hzero]
    rfl

theorem foldl_idle_cleared (T : Nat) (cfg : Config) (calls : List Call) (s : State)
    (hs : s.lastTimestamp = 0 → s = State.initial) :
    (calls.foldl (step T cfg) s).lastTimestamp = 0
      → calls.foldl (step T cfg) s = State.initial := by
  induction calls generalizing s with
  | nil => exact hs
  | cons c rest ih => exact ih (step T cfg s c) (step_idle_cleared T cfg s c hs)

theorem run_idle_cleared (T : Nat) (cfg : Config) (calls : List Call) :
    (run T cfg calls).lastTimestamp = 0 → run T cfg calls = State.initial :=
  foldl_idle_cleared T cfg calls State.initial (fun _ => rfl)

theorem run_snoc (T : Nat) (cfg : Config) (calls : List Call) (c : Call) :
    run T cfg (calls ++ [c]) = step T cfg (run T cfg calls) c := by
  simp [run, List.foldl_append]

/-- C18: in every state reachable from the all-inactive initial state by any
sequence of `processMessage`, `shouldRender`, `canRender` and `render` calls at
any clock readings, `lastTimestamp = 0` (the sentinel) implies distance, level
and slot 0 and `needsRender = false`; hence `shouldRender` on such a state
returns `true` exactly when `lastTimestamp` is not the sentinel after its
expiry check. -/
theorem idle_means_cleared (T : Nat) (cfg : Config) (calls : List Call) :
    ((run T cfg calls).lastTimestamp = 0 →
        (run T cfg calls).parkAssistDistance = 0
          ∧ (run T cfg calls).parkAssistLevel = 0
          ∧ (run T cfg calls).parkAssistSlot = 0
          ∧ (run T cfg calls).needsRender = false)
    ∧ ∀ now : Nat,
        ((shouldRender T now (run T cfg calls)).1 = true
          ↔ (shouldRender T now (run T cfg calls)).2.lastTimestamp ≠ 0) := by
  constructor
  · intro hzero
    rw [run_idle_cleared T cfg calls hzero]
    exact ⟨rfl, rfl, rfl, rfl⟩
  · intro now
    have hnext := run_idle_cleared T cfg (calls ++ [Call.shouldRender now])
    rw [run_snoc] at hnext
    simp only [step] at hnext
    have hret : (shouldRender T now (run T cfg calls)).1
        = ((shouldRender T now (run T cfg calls)).2.needsRender
            || decide ((shouldRender T now (run T cfg calls)).2.lastTimestamp > 0)) := by
      simp only [shouldRender]
    rw [hret]
    constructor
    · intro htrue hzero
      rw [hnext hzero] at htrue
      revert htrue
      decide
    · intro hne
      have hpos : (shouldRender T now (run T cfg calls)).2.lastTimestamp > 0 :=
        Nat.pos_of_ne_zero hne
      simp [hpos]

/-- Witness of C18: after an info message and a disable message the timestamp
is the sentinel and every other field is cleared. -/
theorem idle_means_cleared_witness :
    (run 5000 sampleConfig
        [Call.processMessage 1000 0x1D4 ![0x00, 0x50, 0x22, 0x00, 0, 0, 0, 0],
          Call.processMessage 1200 0x1D4 ![0x0F, 0, 0, 0, 0, 0, 0, 0]]).lastTimestamp = 0
    ∧ (run 5000 sampleConfig
        [Call.processMessage 1000 0x1D4 ![0x00, 0x50, 0x22, 0x00, 0, 0, 0, 0],
          Call.processMessage 1200 0x1D4 ![0x0F, 0, 0, 0, 0, 0, 0, 0]]).parkAssistDistance = 0 :=
  ⟨by decide,
    ((idle_means_cleared 5000 sampleConfig
      [Call.processMessage 1000 0x1D4 ![0x00, 0x50, 0x22, 0x00, 0, 0, 0, 0],
        Call.processMessage 1200 0x1D4 ![0x0F, 0, 0, 0, 0, 0, 0, 0]]).1 (by decide)).1⟩

/-! ## Idempotence of the expiry check -/

/-- C19: at a fixed clock reading `now`, a second `shouldRender` returns the
same value and leaves the same state as the first one alone, for every
state; the same holds for `canRender` followed by `shouldRender`, the order
the dispatcher uses within one tick. -/
theorem shouldRender_idempotent (T now : Nat) (s : State) :
    shouldRender T now (shouldRender T now s).2 = shouldRender T now s
    ∧ shouldRender T now (canRender T now s).2 = canRender T now s := by
  have h : shouldRender T now (shouldRender T now s).2 = shouldRender T now s := by
    simp only [shouldRender]
    split_ifs <;> simp_all [processParkAssistDisableMessage]
  exact ⟨h, h⟩

/-! ## Rendering properties -/

theorem renderMarkerRectangle_needsRender (cfg : Config) (now : Nat) (s : State) (b : Bool) :
    renderMarkerRectangle cfg now { s with needsRender := b }
      = renderMarkerRectangle cfg now s := rfl

theorem renderMarkerRectangle_only_fillRect (cfg : Config) (now : Nat) (s : State)
    (c : DisplayCmd) (hc : c ∈ renderMarkerRectangle cfg now s) :
    ∃ x y w h color, c = DisplayCmd.fillRect x y w h color := by
  unfold renderMarkerRectangle at hc
  simp only [] at hc
  split_ifs at hc <;> simp only [List.mem_cons, List.mem_singleton, List.not_mem_nil,
    or_false] at hc
  all_goals
    rcases hc with rfl | rfl
    all_goals exact ⟨_, _, _, _, _, rfl⟩

theorem renderMarkerRectangle_eq (cfg : Config) (now : Nat) (s : State) :
    renderMarkerRectangle cfg now s
      = DisplayCmd.fillRect 0 (cfg.SCREEN_HEIGHT - cfg.PA_BAR_H) cfg.SCREEN_WIDTH cfg.PA_BAR_H
          Color.SSD1306_BLACK
        :: (if 1 ≤ s.parkAssistLevel ∧ s.parkAssistLevel ≤ 4
              ∧ now % cfg.parkAssistDisplayMod s.parkAssistLevel
                < cfg.parkAssistDisplayCompare s.parkAssistLevel then
            [DisplayCmd.fillRect
              (cfg.PA_BAR_MARGIN + cfg.PA_BAR_W * ((s.parkAssistSlot : Int) - 1))
              (cfg.SCREEN_HEIGHT - cfg.PA_BAR_H) (cfg.PA_BAR_W + cfg.PA_BAR_EXTRA_W)
              cfg.PA_BAR_H Color.SSD1306_WHITE]
          else []) := by
  unfold renderMarkerRectangle
  simp only []
  split_ifs with h1 h2 h3 h4 <;> first | rfl | (exfalso; omega)

/-- C12: for every state and clock reading `render` leaves `needsRender = false`
and changes no other field. Its output is, in order: the text redraw exactly
when `needsRender` was true on entry (clear display, text size, colour, font,
cursor, then the distance text), the black full-width `fillRect` that blanks
the marker strip, the white marker `fillRect` when the level is 1..4 and the
blink phase is on, and the display update. A second `render` at the same tick
leaves the same state and emits no text redraw: exactly the same blanking
`fillRect`, the same optional marker `fillRect`, and the display update. -/
theorem render_clears_dirty_idempotent (cfg : Config) (now : Nat) (s : State) :
    (render cfg now s).1 = { s with needsRender := false }
    ∧ (render cfg now s).2
        = (if s.needsRender then DisplayCmd.clearDisplay :: renderDistance cfg s else [])
            ++ renderMarkerRectangle cfg now s ++ [DisplayCmd.display]
    ∧ (DisplayCmd.clearDisplay ∈ (render cfg now s).2 ↔ s.needsRender = true)
    ∧ (DisplayCmd.write (renderDistanceText cfg s) ∈ (render cfg now s).2
        ↔ s.needsRender = true)
    ∧ render cfg now (render cfg now s).1
        = ((render cfg now s).1, renderMarkerRectangle cfg now s ++ [DisplayCmd.display])
    ∧ (∀ c ∈ renderMarkerRectangle cfg now s, ∃ x y w h color,
        c = DisplayCmd.fillRect x y w h color)
    ∧ (render cfg now s).2
        = (if s.needsRender then
            [DisplayCmd.clearDisplay,
              DisplayCmd.setTextSize 1,
              DisplayCmd.setTextColor Color.SSD1306_WHITE,
              DisplayCmd.setFontFreeSans9pt7b,
              DisplayCmd.setCursor
                (Int.tdiv (toInt16 (cfg.SCREEN_WIDTH
                  - ((cfg.getTextBounds (renderDistanceText cfg s)).1 % 65536 : Nat))) 2)
                (toInt16 ((cfg.getTextBounds (renderDistanceText cfg s)).2 % 65536 : Nat)),
              DisplayCmd.write (renderDistanceText cfg s)]
          else [])
          ++ (DisplayCmd.fillRect 0 (cfg.SCREEN_HEIGHT - cfg.PA_BAR_H) cfg.SCREEN_WIDTH
                cfg.PA_BAR_H Color.SSD1306_BLACK
              :: (if 1 ≤ s.parkAssistLevel ∧ s.parkAssistLevel ≤ 4
                    ∧ now % cfg.parkAssistDisplayMod s.parkAssistLevel
                      < cfg.parkAssistDisplayCompare s.parkAssistLevel then
                  [DisplayCmd.fillRect
                    (cfg.PA_BAR_MARGIN + cfg.PA_BAR_W * ((s.parkAssistSlot : Int) - 1))
                    (cfg.SCREEN_HEIGHT - cfg.PA_BAR_H) (cfg.PA_BAR_W + cfg.PA_BAR_EXTRA_W)
                    cfg.PA_BAR_H Color.SSD1306_WHITE]
                else []))
          ++ [DisplayCmd.display]
    ∧ (render cfg now (render cfg now s).1).2
        = (DisplayCmd.fillRect 0 (cfg.SCREEN_HEIGHT - cfg.PA_BAR_H) cfg.SCREEN_WIDTH
              cfg.PA_BAR_H Color.SSD1306_BLACK
            :: (if 1 ≤ s.parkAssistLevel ∧ s.parkAssistLevel ≤ 4
                  ∧ now % cfg.parkAssistDisplayMod s.parkAssistLevel
                    < cfg.parkAssistDisplayCompare s.parkAssistLevel then
                [DisplayCmd.fillRect
                  (cfg.PA_BAR_MARGIN + cfg.PA_BAR_W * ((s.parkAssistSlot : Int) - 1))
                  (cfg.SCREEN_HEIGHT - cfg.PA_BAR_H) (cfg.PA_BAR_W + cfg.PA_BAR_EXTRA_W)
                  cfg.PA_BAR_H Color.SSD1306_WHITE]
              else []))
          ++ [DisplayCmd.display] := by
  have hstate := render_state cfg now s
  have hout : (render cfg now s).2
      = (if s.needsRender then DisplayCmd.clearDisplay :: renderDistance cfg s else [])
          ++ renderMarkerRectangle cfg now s ++ [DisplayCmd.display] := by
    simp only [render]
    split_ifs <;> rfl
  have hfill := renderMarkerRectangle_only_fillRect cfg now s
  have hnoclear : DisplayCmd.clearDisplay ∉ renderMarkerRectangle cfg now s := by
    intro hmem
    obtain ⟨x, y, w, h, color, heq⟩ := hfill _ hmem
    cases heq
  have hnowrite : ∀ t, DisplayCmd.write t ∉ renderMarkerRectangle cfg now s := by
    intro t hmem
    obtain ⟨x, y, w, h, color, heq⟩ := hfill _ hmem
    cases heq
  have hsecond : render cfg now (render cfg now s).1
      = ((render cfg now s).1, renderMarkerRectangle cfg now s ++ [DisplayCmd.display]) := by
    rw [hstate]
    simp only [render]
    simp [renderMarkerRectangle_needsRender]
  refine ⟨hstate, hout, ?_, ?_, hsecond, hfill, ?_, ?_⟩
  · rw [hout]
    cases hdirty : s.needsRender <;> simp [hnoclear]
  · rw [hout]
    cases hdirty : s.needsRender <;> simp [hnowrite, renderDistance]
  · rw [hout, ← renderMarkerRectangle_eq cfg now s]
    cases hdirty : s.needsRender <;> simp [renderDistance]
  · rw [hsecond, ← renderMarkerRectangle_eq cfg now s]

/-- C17: `renderMarkerRectangle` first blanks the full-width marker strip and
then draws the white marker if and only if `1 ≤ level ≤ 4` and
`now mod parkAssistDisplayMod[level] < parkAssistDisplayCompare[level]`; the
marker's horizontal offset is `PA_BAR_MARGIN + PA_BAR_W * (slot - 1)`, a
function of the slot alone; and the output does not depend on the entries of
the two tables outside the indices 1..4, so they are never read there. -/
theorem renderMarkerRectangle_spec (cfg : Config) (now : Nat) (s : State) :
    renderMarkerRectangle cfg now s
      = DisplayCmd.fillRect 0 (cfg.SCREEN_HEIGHT - cfg.PA_BAR_H) cfg.SCREEN_WIDTH cfg.PA_BAR_H
          Color.SSD1306_BLACK
        :: (if 1 ≤ s.parkAssistLevel ∧ s.parkAssistLevel ≤ 4
              ∧ now % cfg.parkAssistDisplayMod s.parkAssistLevel
                < cfg.parkAssistDisplayCompare s.parkAssistLevel then
            [DisplayCmd.fillRect
              (cfg.PA_BAR_MARGIN + cfg.PA_BAR_W * ((s.parkAssistSlot : Int) - 1))
              (cfg.SCREEN_HEIGHT - cfg.PA_BAR_H) (cfg.PA_BAR_W + cfg.PA_BAR_EXTRA_W)
              cfg.PA_BAR_H Color.SSD1306_WHITE]
          else [])
    ∧ ∀ (m c : Nat → Nat),
        (∀ l, 1 ≤ l → l ≤ 4 →
          m l = cfg.parkAssistDisplayMod l ∧ c l = cfg.parkAssistDisplayCompare l) →
        renderMarkerRectangle
            { cfg with parkAssistDisplayMod := m, parkAssistDisplayCompare := c } now s
          = renderMarkerRectangle cfg now s := by
  constructor
  · unfold renderMarkerRectangle
    simp only []
    split_ifs with h1 h2 h3 h4 <;> first | rfl | (exfalso; omega)
  · intro m c hagree
    unfold renderMarkerRectangle
    simp only []
    by_cases h1 : s.parkAssistLevel > 0
    · by_cases h2 : s.parkAssistLevel < 5
      · obtain ⟨hm, hc⟩ := hagree s.parkAssistLevel h1 (by omega)
        simp only [h1, h2, if_true, hm, hc]
      · simp only [h1, h2, if_true, if_false]
    · simp only [h1, if_false]

/-- Witness of C17: at level 9 the tables may hold anything at index 9 (here a
zero period) without changing the output, which is the blanking alone. -/
theorem renderMarkerRectangle_spec_witness :
    renderMarkerRectangle
        { sampleConfig with parkAssistDisplayMod := fun l => if l ≤ 4 then 1000 else 0,
                            parkAssistDisplayCompare := fun l => if l ≤ 4 then 500 else 7 }
        1200 (State.mk 1001 80 9 3 false)
      = renderMarkerRectangle sampleConfig 1200 (State.mk 1001 80 9 3 false) :=
  (renderMarkerRectangle_spec sampleConfig 1200 (State.mk 1001 80 9 3 false)).2
    (fun l => if l ≤ 4 then 1000 else 0) (fun l => if l ≤ 4 then 500 else 7)
    (fun l _ h4 => by simp [sampleConfig, h4])

/-! ## Arbitration id -/

/-- C15: `recognizesArbId` returns `true` for exactly one identifier, the
macro `GMLAN_MSG_PARK_ASSIST` whatever its value, and `false` for every other;
with the documented value 0x1D4 it accepts 0x1D4 and nothing else. The
function reads and writes no member, so its embedding takes and returns no
state. -/
theorem recognizesArbId_exactly_one (arbId : Nat) :
    (∀ G : Nat, (recognizesArbId G arbId = true ↔ arbId = G)
        ∧ (recognizesArbId G arbId = false ↔ arbId ≠ G))
    ∧ (recognizesArbId GMLAN_MSG_PARK_ASSIST arbId = true ↔ arbId = 0x1D4)
    ∧ (recognizesArbId GMLAN_MSG_PARK_ASSIST arbId = false ↔ arbId ≠ 0x1D4) := by
  refine ⟨fun G => ?_, ?_, ?_⟩ <;> simp [recognizesArbId, GMLAN_MSG_PARK_ASSIST]

/-! ## Distance text -/

theorem fmtD_eq_toString (n : Nat) : fmtD n = (toString n).toList := rfl

theorem fmtD_length_le_three (n : Nat) (hn : n ≤ 255) : (fmtD n).length ≤ 3 := by
  interval_cases n <;> decide

theorem renderDistance_write (cfg : Config) (s : State) (t : List Char) :
    DisplayCmd.write t ∈ renderDistance cfg s ↔ t = renderDistanceText cfg s := by
  simp [renderDistance]

/-- C14: with metric units selected and a distance `d` in 0..255, the text
`renderDistance` writes is exactly the decimal representation of `d` followed
by "cm"; it has at most 5 characters, so the 10 characters `snprintf` may
write never truncate it; for `d = 255` it is "255cm". -/
theorem renderDistance_metric (cfg : Config) (s : State)
    (hmetric : cfg.useImperial = false) (hd : s.parkAssistDistance ≤ 255) :
    renderDistanceText cfg s = specMetricText s.parkAssistDistance
    ∧ (∀ t, DisplayCmd.write t ∈ renderDistance cfg s
        ↔ t = specMetricText s.parkAssistDistance)
    ∧ (specMetricText s.parkAssistDistance).length ≤ 5
    ∧ (s.parkAssistDistance = 255 → renderDistanceText cfg s = "255cm".toList) := by
  have hlen := fmtD_length_le_three s.parkAssistDistance hd
  have htext : renderDistanceText cfg s = specMetricText s.parkAssistDistance := by
    unfold renderDistanceText specMetricText snprintf11
    simp only [hmetric, Bool.false_eq_true, if_false]
    rw [← fmtD_eq_toString]
    apply List.take_of_length_le
    rw [List.length_append]
    have h2 : "cm".toList.length = 2 := rfl
    omega
  refine ⟨htext, ?_, ?_, ?_⟩
  · intro t
    rw [renderDistance_write, htext]
  · unfold specMetricText
    rw [← fmtD_eq_toString, List.length_append]
    have h2 : "cm".toList.length = 2 := rfl
    omega
  · intro h255
    rw [htext, h255]
    rfl

/-- Witness of C14: distance 255 on the metric sample configuration. -/
theorem renderDistance_metric_witness :
    renderDistanceText sampleConfig (State.mk 1001 255 2 3 true) = "255cm".toList :=
  (renderDistance_metric sampleConfig (State.mk 1001 255 2 3 true) rfl (by decide)).2.2.2 rfl

end GMParkAssist
